import Mathlib

/-!
Verification of `create_spritesheets.py` (DefaultMale sprite-sheet generator).

The script combines per-direction animation frame files into one grid
sprite sheet per animation.  We model the filesystem as a structure of
observation functions (`FS`), images as pixel functions with explicit
dimensions, and the script's control flow — including the uncaught
exception raised when saving the sheet fails — with `Except`.
-/

set_option maxRecDepth 4000
set_option autoImplicit false

/-- A path, modelled as its list of components (`os.path.join` appends). -/
abbrev FsPath := List String

/-- Render a path for diagnostic messages. -/
def pathStr (p : FsPath) : String := String.intercalate ("/") p

/-- An RGBA pixel value. -/
structure RGBA where
  r : Nat
  g : Nat
  b : Nat
  a : Nat
deriving DecidableEq

/-- The fully transparent pixel `(0, 0, 0, 0)` used to initialise the sheet. -/
def transparent : RGBA := ⟨0, 0, 0, 0⟩

/-- An in-memory image: dimensions plus a pixel function. -/
structure Image where
  width : Nat
  height : Nat
  px : Nat → Nat → RGBA

/-- `Image.new "RGBA" (w, h) (0, 0, 0, 0)`: a fully transparent canvas. -/
def Image.new (w h : Nat) : Image := ⟨w, h, fun _ _ => transparent⟩

/-- `base.paste(frame, (x, y))` in PIL: the frame's pixels are copied at
upper-left corner `(x, y)` using the frame's own width and height, clipped
to the bounds of the base image; all other pixels keep their old value. -/
def Image.paste (base frame : Image) (x y : Nat) : Image :=
  { base with
    px := fun i j =>
      if x ≤ i ∧ i < x + frame.width ∧ y ≤ j ∧ j < y + frame.height ∧
          i < base.width ∧ j < base.height then
        frame.px (i - x) (j - y)
      else base.px i j }

/-- The filesystem, as the observations the script makes of it.
`decode p` is the result of `Image.open(p)`: `some` image, or `none` when
opening/decoding raises.  `saveFails p` says whether writing the sheet to
`p` (`os.makedirs` + `Image.save`) raises. -/
structure FS where
  pathExists : FsPath → Bool
  listdir : FsPath → List String
  decode : FsPath → Option Image
  saveFails : FsPath → Bool

/-- `FRAME_WIDTH = 104`. -/
def FRAME_WIDTH : Nat := 104

/-- `FRAME_HEIGHT = 104`. -/
def FRAME_HEIGHT : Nat := 104

/-- The fixed direction order (rows of the sheet, top to bottom). -/
def DIRECTIONS : List String :=
  ["south", "south-east", "east", "north-east", "north", "north-west", "west", "south-west"]

/-- `ANIMATIONS`: output name to source folder name, in iteration order. -/
def ANIMATIONS : List (String × String) :=
  [("idle", "breathing-idle"), ("walk", "walk"), ("run", "running-6-frames")]

/-- Does the first character list occur at the head of the second?
(The comparison Python's `str.startswith` performs.) -/
def headMatch : List Char → List Char → Bool
  | [], _ => true
  | _ :: _, [] => false
  | a :: as, b :: bs => if a = b then headMatch as bs else false

/-- Python's `str.startswith`. -/
def strStartsWith (s pat : String) : Bool := headMatch pat.data s.data

/-- Python's `str.endswith`. -/
def strEndsWith (s pat : String) : Bool := headMatch pat.data.reverse s.data.reverse

/-- Lexicographic comparison of character lists by code point, the order
Python's string comparison uses. -/
def charsLe : List Char → List Char → Bool
  | [], _ => true
  | _ :: _, [] => false
  | a :: as, b :: bs =>
    if a.toNat < b.toNat then true
    else if b.toNat < a.toNat then false
    else charsLe as bs

/-- Python's `<=` on strings: lexicographic by code point. -/
def strLe (a b : String) : Bool := charsLe a.data b.data

/-- Python's `list.sort()` on filenames: stable sort by the lexicographic
string order. -/
def sortStrings (l : List String) : List String :=
  List.insertionSort (fun a b => strLe a b = true) l

/-- `get_frame_files(animation_path, direction)`: the sorted frame file
paths for one direction, together with the warning lines it prints.
A missing directory yields an empty list and a warning. -/
def get_frame_files (fs : FS) (animation_path : FsPath) (direction : String) :
    List FsPath × List String :=
  let dir_path := animation_path ++ [direction]
  if fs.pathExists dir_path then
    let files := (fs.listdir dir_path).filter
      (fun f => strStartsWith f ("frame_") && strEndsWith f (".png"))
    ((sortStrings files).map (fun f => dir_path ++ [f]), [])
  else
    ([], ["  Warning: Directory not found: " ++ pathStr dir_path])

/-- The per-direction frame lists, in `DIRECTIONS` order (the script's
`direction_frames`, read off in row order). -/
def directionFrames (fs : FS) (animation_path : FsPath) : List (List FsPath) :=
  DIRECTIONS.map (fun d => (get_frame_files fs animation_path d).1)

/-- `max_frames`: the running maximum of the eight per-direction counts. -/
def maxFrames (fs : FS) (animation_path : FsPath) : Nat :=
  ((directionFrames fs animation_path).map List.length).foldl Nat.max 0

/-- The freshly allocated sheet canvas:
`Image.new("RGBA", (max_frames * FRAME_WIDTH, len(DIRECTIONS) * FRAME_HEIGHT), (0,0,0,0))`. -/
def initialCanvas (fs : FS) (animation_path : FsPath) : Image :=
  Image.new (maxFrames fs animation_path * FRAME_WIDTH) (DIRECTIONS.length * FRAME_HEIGHT)

/-- A record of one executed `spritesheet.paste(frame, (x, y))` call. -/
structure Paste where
  path : FsPath
  x : Nat
  y : Nat
deriving DecidableEq

/-- The inner loop over one direction's frames (`for col, frame_path in
enumerate(frames)`): each frame that decodes is pasted at
`(col * FRAME_WIDTH, row * FRAME_HEIGHT)`; a decode failure is logged and
skipped.  Returns the updated canvas, the pastes performed, and the error
lines printed. -/
def pasteRow (fs : FS) (row : Nat) : Nat → Image → List FsPath → Image × List Paste × List String
  | _, canvas, [] => (canvas, [], [])
  | col, canvas, p :: rest =>
    match fs.decode p with
    | some frame =>
      let out := pasteRow fs row (col + 1)
        (canvas.paste frame (col * FRAME_WIDTH) (row * FRAME_HEIGHT)) rest
      (out.1, ⟨p, col * FRAME_WIDTH, row * FRAME_HEIGHT⟩ :: out.2.1, out.2.2)
    | none =>
      let out := pasteRow fs row (col + 1) canvas rest
      (out.1, out.2.1, ("  Error loading " ++ pathStr p) :: out.2.2)

/-- The outer loop (`for row, direction in enumerate(DIRECTIONS)`). -/
def pasteRows (fs : FS) : Nat → Image → List (List FsPath) → Image × List Paste × List String
  | _, canvas, [] => (canvas, [], [])
  | row, canvas, frames :: rest =>
    let o1 := pasteRow fs row 0 canvas frames
    let o2 := pasteRows fs (row + 1) o1.1 rest
    (o2.1, o1.2.1 ++ o2.2.1, o1.2.2 ++ o2.2.2)

/-- The composition step of `create_spritesheet`: paste every discovered
frame of every direction onto the fresh canvas. -/
def composeSheet (fs : FS) (animation_path : FsPath) : Image × List Paste × List String :=
  pasteRows fs 0 (initialCanvas fs animation_path) (directionFrames fs animation_path)

/-- The outcome of one `create_spritesheet` call that returned normally. -/
structure SheetResult where
  success : Bool
  written : Option Image
  trace : List Paste
  log : List String

/-- `os.path.join(os.path.dirname(__file__), "animations")`. -/
def animationsPath (script_dir : FsPath) : FsPath := script_dir ++ ["animations"]

/-- The diagnostics printed while discovering frames for all directions. -/
def discoveryLog (fs : FS) (animation_path : FsPath) : List String :=
  (DIRECTIONS.map (fun d =>
    (get_frame_files fs animation_path d).2 ++
      ["  " ++ d ++ ": " ++ toString (get_frame_files fs animation_path d).1.length
        ++ " frames"])).flatten

/-- `create_spritesheet(animation_name, source_folder, output_path)`.
Returns `.ok` with the boolean result of the Python function, or `.error`
for the uncaught exception raised when saving the sheet fails (the
`os.makedirs`/`spritesheet.save` calls are not wrapped in any `try`). -/
def create_spritesheet (fs : FS) (animation_name source_folder : String)
    (script_dir : FsPath) (output_path : FsPath) : Except String SheetResult :=
  let animation_path := animationsPath script_dir ++ [source_folder]
  if fs.pathExists animation_path = false then
    .ok ⟨false, none, [], ["Animation folder not found: " ++ pathStr animation_path]⟩
  else if maxFrames fs animation_path = 0 then
    .ok ⟨false, none, [],
      ("Creating " ++ animation_name ++ (".png from ") ++ source_folder ++ ("...")) ::
        discoveryLog fs animation_path ++ ["  No frames found for " ++ animation_name]⟩
  else
    let comp := composeSheet fs animation_path
    if fs.saveFails output_path then
      .error ("OutputWriteError")
    else
      .ok ⟨true, some comp.1, comp.2.1,
        ("Creating " ++ animation_name ++ (".png from ") ++ source_folder ++ ("...")) ::
          discoveryLog fs animation_path ++ comp.2.2 ++ ["  Saved: " ++ pathStr output_path]⟩

/-- The output path `os.path.join(output_dir, f"{output_name}.png")`. -/
def animOutputPath (script_dir : FsPath) (output_name : String) : FsPath :=
  script_dir ++ ["spritesheets", output_name ++ (".png")]

/-- One iteration of `main`'s loop for a single animation entry. -/
def animResult (fs : FS) (script_dir : FsPath) (a : String × String) : Except String SheetResult :=
  create_spritesheet fs a.1 a.2 script_dir (animOutputPath script_dir a.1)

/-- `main`'s loop: accumulate the success count; an uncaught exception
from `create_spritesheet` aborts the remaining iterations. -/
def runAnims (fs : FS) (script_dir : FsPath) : List (String × String) → Except String Nat
  | [] => .ok 0
  | a :: rest =>
    match animResult fs script_dir a with
    | .error e => .error e
    | .ok r =>
      match runAnims fs script_dir rest with
      | .error e => .error e
      | .ok n => .ok ((if r.success then 1 else 0) + n)

/-- `main()`: returns `(success_count, total)` as printed in the final
summary, or `.error` when an uncaught exception terminated the batch
before the summary. -/
def mainBatch (fs : FS) (script_dir : FsPath) : Except String (Nat × Nat) :=
  (runAnims fs script_dir ANIMATIONS).map (fun n => (n, ANIMATIONS.length))

/-- Did `create_spritesheet` return (rather than raise)? -/
def isOk (e : Except String SheetResult) : Bool :=
  match e with
  | .ok _ => true
  | .error _ => false

/-- Did `create_spritesheet` return `True`? -/
def isSuccess (e : Except String SheetResult) : Bool :=
  match e with
  | .ok r => r.success
  | .error _ => false

/-- The image written by a `create_spritesheet` call, when any. -/
def sheetWritten (e : Except String SheetResult) : Option Image :=
  match e with
  | .ok r => r.written
  | .error _ => none

/-- Width of the written sheet, when one was written. -/
def writtenWidth (e : Except String SheetResult) : Option Nat :=
  (sheetWritten e).map Image.width

/-- Height of the written sheet, when one was written. -/
def writtenHeight (e : Except String SheetResult) : Option Nat :=
  (sheetWritten e).map Image.height

/-- A pixel of the written sheet, when one was written. -/
def writtenPx (e : Except String SheetResult) (x y : Nat) : Option RGBA :=
  (sheetWritten e).map (fun img => img.px x y)

/-- Did the whole batch complete normally (and print its summary)? -/
def batchCompleted (e : Except String (Nat × Nat)) : Bool :=
  match e with
  | .ok _ => true
  | .error _ => false

/-- The pastes performed along one row, independent of the canvas. -/
def rowTrace (fs : FS) (row : Nat) : Nat → List FsPath → List Paste
  | _, [] => []
  | col, p :: rest =>
    match fs.decode p with
    | some _ => ⟨p, col * FRAME_WIDTH, row * FRAME_HEIGHT⟩ :: rowTrace fs row (col + 1) rest
    | none => rowTrace fs row (col + 1) rest

/-- The pastes performed over all rows, independent of the canvas. -/
def sheetTrace (fs : FS) : Nat → List (List FsPath) → List Paste
  | _, [] => []
  | row, frames :: rest => rowTrace fs row 0 frames ++ sheetTrace fs (row + 1) rest

/-- Pixel `(x, y)` lies in the grid cell at row `r`, column `c`. -/
def inCell (r c x y : Nat) : Prop :=
  c * FRAME_WIDTH ≤ x ∧ x < (c + 1) * FRAME_WIDTH ∧
    r * FRAME_HEIGHT ≤ y ∧ y < (r + 1) * FRAME_HEIGHT

/-- The decode-error lines printed along one row. -/
def rowLog (fs : FS) : List FsPath → List String
  | [] => []
  | p :: rest =>
    match fs.decode p with
    | some _ => rowLog fs rest
    | none => ("  Error loading " ++ pathStr p) :: rowLog fs rest

/-- The decode-error lines printed over all rows. -/
def sheetLog (fs : FS) : List (List FsPath) → List String
  | [] => []
  | frames :: rest => rowLog fs frames ++ sheetLog fs rest

/-! ### Concrete filesystems used as witnesses -/

/-- A plain opaque white 104 by 104 frame. -/
def whiteFrame : Image := ⟨104, 104, fun _ _ => ⟨255, 255, 255, 255⟩⟩

/-- The script directory used by the witnesses. -/
def sd0 : FsPath := ["root"]

/-- Directories present in the healthy witness filesystem. -/
def goodDirs : List FsPath :=
  [["root", "animations", "breathing-idle"], ["root", "animations", "breathing-idle", "south"],
   ["root", "animations", "walk"], ["root", "animations", "walk", "south"],
   ["root", "animations", "walk", "east"],
   ["root", "animations", "running-6-frames"], ["root", "animations", "running-6-frames", "south"]]

/-- Directory listings of the healthy witness filesystem (the walk/south
listing is deliberately unsorted and contains a non-frame file). -/
def goodListdir (p : FsPath) : List String :=
  if p = ["root", "animations", "walk", "south"] then
    ["frame_001.png", "frame_000.png", "notes.txt"]
  else if p = ["root", "animations", "walk", "east"] then
    ["frame_000.png", "frame_001.png"]
  else if p = ["root", "animations", "breathing-idle", "south"] then ["frame_000.png"]
  else if p = ["root", "animations", "running-6-frames", "south"] then ["frame_000.png"]
  else []

/-- A filesystem on which every animation succeeds. -/
def fsGood : FS where
  pathExists := fun p => goodDirs.contains p
  listdir := goodListdir
  decode := fun _ => some whiteFrame
  saveFails := fun _ => false

/-- Like `fsGood` but the `breathing-idle` source folder is absent. -/
def fsMissingIdle : FS where
  pathExists := fun p => (goodDirs.filter
    (fun q => decide (q ≠ ["root", "animations", "breathing-idle"]))).contains p
  listdir := goodListdir
  decode := fun _ => some whiteFrame
  saveFails := fun _ => false

/-- Like `fsGood` but writing `spritesheets/idle.png` raises. -/
def fsSaveFail : FS where
  pathExists := fun p => goodDirs.contains p
  listdir := goodListdir
  decode := fun _ => some whiteFrame
  saveFails := fun p => decide (p = ["root", "spritesheets", "idle.png"])

/-- Like `fsGood` but no frame file decodes. -/
def fsNoneDecode : FS where
  pathExists := fun p => goodDirs.contains p
  listdir := goodListdir
  decode := fun _ => none
  saveFails := fun _ => false

/-- Like `fsGood` but `walk/south/frame_000.png` fails to decode. -/
def fsMixed : FS where
  pathExists := fun p => goodDirs.contains p
  listdir := goodListdir
  decode := fun p =>
    if p = ["root", "animations", "walk", "south", "frame_000.png"] then none
    else some whiteFrame
  saveFails := fun _ => false

/-- A filesystem where the `breathing-idle` folder exists but holds no
frames at all. -/
def fsEmpty : FS where
  pathExists := fun p => decide (p = ["root", "animations", "breathing-idle"])
  listdir := fun _ => []
  decode := fun _ => none
  saveFails := fun _ => false

/-- Like `fsGood` but with a different listing of an unrelated
directory. -/
def fsGood2 : FS where
  pathExists := fun p => goodDirs.contains p
  listdir := fun p => if p = ["elsewhere"] then ["junk.txt"] else goodListdir p
  decode := fun _ => some whiteFrame
  saveFails := fun _ => false

/-- An opaque red pixel. -/
def redPx : RGBA := ⟨255, 0, 0, 255⟩

/-- An opaque blue pixel. -/
def bluePx : RGBA := ⟨0, 0, 255, 255⟩

/-- An oversized frame: 208 wide (two cells), 50 tall, all red. -/
def bigFrame : Image := ⟨208, 50, fun _ _ => redPx⟩

/-- An undersized frame: 50 by 50, all blue. -/
def smallFrame : Image := ⟨50, 50, fun _ _ => bluePx⟩

/-- A filesystem whose walk animation has an oversized first frame and an
undersized second frame in the south row. -/
def fsOdd : FS where
  pathExists := fun p =>
    ([["root", "animations", "walk"], ["root", "animations", "walk", "south"]] :
      List FsPath).contains p
  listdir := fun p =>
    if p = ["root", "animations", "walk", "south"] then
      ["frame_000.png", "frame_001.png"]
    else []
  decode := fun p =>
    if p = ["root", "animations", "walk", "south", "frame_000.png"] then some bigFrame
    else if p = ["root", "animations", "walk", "south", "frame_001.png"] then
      some smallFrame
    else none
  saveFails := fun _ => false


/-! ### Order properties of the filename sort -/

lemma charsLe_total : ∀ as bs : List Char, charsLe as bs = true ∨ charsLe bs as = true
  | [], _ => Or.inl rfl
  | _ :: _, [] => Or.inr rfl
  | a :: as, b :: bs => by
    simp only [charsLe]
    rcases Nat.lt_trichotomy a.toNat b.toNat with h | h | h
    · left
      simp [h]
    · have h1 : ¬ a.toNat < b.toNat := by omega
      have h2 : ¬ b.toNat < a.toNat := by omega
      simpa [h1, h2] using charsLe_total as bs
    · right
      simp [h]

lemma charsLe_trans :
    ∀ as bs cs : List Char,
      charsLe as bs = true → charsLe bs cs = true → charsLe as cs = true
  | [], _, _ => by
    intro _ _
    rfl
  | _ :: _, [], _ => by
    intro h _
    exact absurd h (by simp [charsLe])
  | _ :: _, _ :: _, [] => by
    intro _ h
    exact absurd h (by simp [charsLe])
  | a :: as, b :: bs, c :: cs => by
    intro h1 h2
    simp only [charsLe] at h1 h2 ⊢
    by_cases hba : b.toNat < a.toNat
    · simp [show ¬ a.toNat < b.toNat by omega, hba] at h1
    by_cases hab : a.toNat < b.toNat
    · by_cases hbc : b.toNat < c.toNat
      · simp [show a.toNat < c.toNat by omega]
      · by_cases hcb : c.toNat < b.toNat
        · simp [show ¬ b.toNat < c.toNat by omega, hcb] at h2
        · simp [show a.toNat < c.toNat by omega]
    · by_cases hbc : b.toNat < c.toNat
      · simp [show a.toNat < c.toNat by omega]
      · by_cases hcb : c.toNat < b.toNat
        · simp [show ¬ b.toNat < c.toNat by omega, hcb] at h2
        · have hac1 : ¬ a.toNat < c.toNat := by omega
          have hac2 : ¬ c.toNat < a.toNat := by omega
          simp [hab, hba] at h1
          simp [hbc, hcb] at h2
          simpa [hac1, hac2] using charsLe_trans as bs cs h1 h2

instance : IsTotal String (fun a b => strLe a b = true) :=
  ⟨fun a b => charsLe_total a.data b.data⟩

instance : IsTrans String (fun a b => strLe a b = true) :=
  ⟨fun a b c => charsLe_trans a.data b.data c.data⟩

lemma mem_sortStrings {x : String} {l : List String} : x ∈ sortStrings l ↔ x ∈ l :=
  (List.perm_insertionSort (fun a b => strLe a b = true) l).mem_iff

lemma sorted_sortStrings (l : List String) :
    List.Pairwise (fun a b => strLe a b = true) (sortStrings l) :=
  List.sorted_insertionSort (fun a b => strLe a b = true) l

/-! ### Dimension preservation -/

lemma paste_width (base frame : Image) (x y : Nat) :
    (base.paste frame x y).width = base.width := rfl

lemma paste_height (base frame : Image) (x y : Nat) :
    (base.paste frame x y).height = base.height := rfl

lemma pasteRow_width (fs : FS) (row : Nat) :
    ∀ (frames : List FsPath) (col : Nat) (c : Image),
      (pasteRow fs row col c frames).1.width = c.width
  | [], _, _ => rfl
  | p :: rest, col, c => by
    simp only [pasteRow]
    cases fs.decode p <;>
      simp [pasteRow_width fs row rest (col + 1), paste_width]

lemma pasteRow_height (fs : FS) (row : Nat) :
    ∀ (frames : List FsPath) (col : Nat) (c : Image),
      (pasteRow fs row col c frames).1.height = c.height
  | [], _, _ => rfl
  | p :: rest, col, c => by
    simp only [pasteRow]
    cases fs.decode p <;>
      simp [pasteRow_height fs row rest (col + 1), paste_height]

lemma pasteRows_width (fs : FS) :
    ∀ (lists : List (List FsPath)) (row : Nat) (c : Image),
      (pasteRows fs row c lists).1.width = c.width
  | [], _, _ => rfl
  | frames :: rest, row, c => by
    simp only [pasteRows]
    rw [pasteRows_width fs rest (row + 1), pasteRow_width]

lemma pasteRows_height (fs : FS) :
    ∀ (lists : List (List FsPath)) (row : Nat) (c : Image),
      (pasteRows fs row c lists).1.height = c.height
  | [], _, _ => rfl
  | frames :: rest, row, c => by
    simp only [pasteRows]
    rw [pasteRows_height fs rest (row + 1), pasteRow_height]

lemma composeSheet_width (fs : FS) (ap : FsPath) :
    (composeSheet fs ap).1.width = maxFrames fs ap * FRAME_WIDTH := by
  unfold composeSheet
  rw [pasteRows_width]
  rfl

lemma composeSheet_height (fs : FS) (ap : FsPath) :
    (composeSheet fs ap).1.height = DIRECTIONS.length * FRAME_HEIGHT := by
  unfold composeSheet
  rw [pasteRows_height]
  rfl

/-! ### The paste trace -/

lemma pasteRow_trace (fs : FS) (row : Nat) :
    ∀ (frames : List FsPath) (col : Nat) (c : Image),
      (pasteRow fs row col c frames).2.1 = rowTrace fs row col frames
  | [], _, _ => rfl
  | p :: rest, col, c => by
    simp only [pasteRow, rowTrace]
    cases fs.decode p <;>
      simp [pasteRow_trace fs row rest (col + 1)]

lemma pasteRows_trace (fs : FS) :
    ∀ (lists : List (List FsPath)) (row : Nat) (c : Image),
      (pasteRows fs row c lists).2.1 = sheetTrace fs row lists
  | [], _, _ => rfl
  | frames :: rest, row, c => by
    simp only [pasteRows, sheetTrace]
    rw [pasteRow_trace, pasteRows_trace fs rest (row + 1)]

lemma composeSheet_trace (fs : FS) (ap : FsPath) :
    (composeSheet fs ap).2.1 = sheetTrace fs 0 (directionFrames fs ap) := by
  unfold composeSheet
  rw [pasteRows_trace]

lemma rowTrace_mem (fs : FS) (row : Nat) :
    ∀ (frames : List FsPath) (col i : Nat) (hi : i < frames.length) (f : Image),
      fs.decode (frames.get ⟨i, hi⟩) = some f →
      Paste.mk (frames.get ⟨i, hi⟩) ((col + i) * FRAME_WIDTH) (row * FRAME_HEIGHT) ∈
        rowTrace fs row col frames
  | [], _, i, hi, _ => by cases hi
  | p :: rest, col, 0, _, f => by
    intro hd
    simp only [List.get] at hd ⊢
    simp only [rowTrace]
    cases hq : fs.decode p with
    | some g =>
      simp only [Nat.add_zero]
      exact List.mem_cons_self _ _
    | none =>
      rw [hd] at hq
      cases hq
  | p :: rest, col, i + 1, hi, f => by
    intro hd
    have ih := rowTrace_mem fs row rest (col + 1) i (Nat.lt_of_succ_lt_succ hi) f hd
    have harith : col + 1 + i = col + (i + 1) := by omega
    rw [harith] at ih
    simp only [rowTrace]
    cases fs.decode p with
    | some g => exact List.mem_cons_of_mem _ ih
    | none => exact ih

lemma sheetTrace_mem (fs : FS) :
    ∀ (lists : List (List FsPath)) (row r : Nat) (hr : r < lists.length) (x : Paste),
      x ∈ rowTrace fs (row + r) 0 (lists.get ⟨r, hr⟩) →
      x ∈ sheetTrace fs row lists
  | [], _, r, hr, _ => by cases hr
  | frames :: rest, row, 0, _, x => by
    intro hx
    simp only [Nat.add_zero] at hx
    exact List.mem_append_left _ hx
  | frames :: rest, row, r + 1, hr, x => by
    intro hx
    have harith : row + 1 + r = row + (r + 1) := by omega
    rw [← harith] at hx
    exact List.mem_append_right _
      (sheetTrace_mem fs rest (row + 1) r (Nat.lt_of_succ_lt_succ hr) x hx)

lemma rowTrace_not_mem (fs : FS) (row : Nat) {p : FsPath} (hp : fs.decode p = none) :
    ∀ (frames : List FsPath) (col x y : Nat),
      Paste.mk p x y ∉ rowTrace fs row col frames
  | [], _, _, _ => List.not_mem_nil _
  | q :: rest, col, x, y => by
    simp only [rowTrace]
    cases hq : fs.decode q with
    | some g =>
      intro hmem
      rcases List.mem_cons.mp hmem with heq | hmem2
      · have : p = q := congrArg Paste.path heq
        rw [this, hq] at hp
        cases hp
      · exact rowTrace_not_mem fs row hp rest (col + 1) x y hmem2
    | none => exact rowTrace_not_mem fs row hp rest (col + 1) x y

lemma sheetTrace_not_mem (fs : FS) {p : FsPath} (hp : fs.decode p = none) :
    ∀ (lists : List (List FsPath)) (row x y : Nat),
      Paste.mk p x y ∉ sheetTrace fs row lists
  | [], _, _, _ => List.not_mem_nil _
  | frames :: rest, row, x, y => by
    simp only [sheetTrace]
    intro hmem
    rcases List.mem_append.mp hmem with h | h
    · exact rowTrace_not_mem fs row hp frames 0 x y h
    · exact sheetTrace_not_mem fs hp rest (row + 1) x y h

/-! ### Pixels left untouched by the composition -/

lemma inCell_unique {r c r2 c2 x y : Nat} (h1 : inCell r c x y) (h2 : inCell r2 c2 x y) :
    r = r2 ∧ c = c2 := by
  simp only [inCell, FRAME_WIDTH, FRAME_HEIGHT] at h1 h2
  omega

lemma paste_px_of_not_covered (base frame : Image) (X Y x y : Nat)
    (h : ¬ (X ≤ x ∧ x < X + frame.width ∧ Y ≤ y ∧ y < Y + frame.height)) :
    (base.paste frame X Y).px x y = base.px x y := by
  simp only [Image.paste]
  rw [if_neg]
  intro hc
  exact h ⟨hc.1, hc.2.1, hc.2.2.1, hc.2.2.2.1⟩

/-- Under the fit hypothesis, the paste of a frame at cell `(row, col)`
only changes pixels of that cell. -/
lemma paste_px_cell (base frame : Image) (row col x y : Nat)
    (hw : frame.width ≤ FRAME_WIDTH) (hh : frame.height ≤ FRAME_HEIGHT)
    (h : ¬ inCell row col x y) :
    (base.paste frame (col * FRAME_WIDTH) (row * FRAME_HEIGHT)).px x y = base.px x y := by
  apply paste_px_of_not_covered
  intro hc
  apply h
  refine ⟨hc.1, ?_, hc.2.2.1, ?_⟩
  · calc x < col * FRAME_WIDTH + frame.width := hc.2.1
      _ ≤ col * FRAME_WIDTH + FRAME_WIDTH := Nat.add_le_add_left hw _
      _ = (col + 1) * FRAME_WIDTH := (Nat.succ_mul col FRAME_WIDTH).symm
  · calc y < row * FRAME_HEIGHT + frame.height := hc.2.2.2
      _ ≤ row * FRAME_HEIGHT + FRAME_HEIGHT := Nat.add_le_add_left hh _
      _ = (row + 1) * FRAME_HEIGHT := (Nat.succ_mul row FRAME_HEIGHT).symm

lemma pasteRow_px_skip (fs : FS) (row x y : Nat)
    (hfit : ∀ p f, fs.decode p = some f → f.width ≤ FRAME_WIDTH ∧ f.height ≤ FRAME_HEIGHT) :
    ∀ (frames : List FsPath) (col : Nat) (c : Image),
      (∀ j (hj : j < frames.length),
        fs.decode (frames.get ⟨j, hj⟩) = none ∨ ¬ inCell row (col + j) x y) →
      (pasteRow fs row col c frames).1.px x y = c.px x y
  | [], _, _ => by
    intro _
    rfl
  | p :: rest, col, c => by
    intro hexcl
    have hrest : ∀ j (hj : j < rest.length),
        fs.decode (rest.get ⟨j, hj⟩) = none ∨ ¬ inCell row (col + 1 + j) x y := by
      intro j hj
      have := hexcl (j + 1) (Nat.succ_lt_succ hj)
      simpa [show col + (j + 1) = col + 1 + j by omega] using this
    simp only [pasteRow]
    cases hq : fs.decode p with
    | none => exact pasteRow_px_skip fs row x y hfit rest (col + 1) c hrest
    | some f =>
      have h0 := hexcl 0 (Nat.succ_pos _)
      simp only [List.get, hq, Nat.add_zero] at h0
      rcases h0 with h0 | h0
      · cases h0
      · rw [pasteRow_px_skip fs row x y hfit rest (col + 1) _ hrest]
        exact paste_px_cell c f row col x y (hfit p f hq).1 (hfit p f hq).2 h0

lemma pasteRows_px_skip (fs : FS) (x y : Nat)
    (hfit : ∀ p f, fs.decode p = some f → f.width ≤ FRAME_WIDTH ∧ f.height ≤ FRAME_HEIGHT) :
    ∀ (lists : List (List FsPath)) (row : Nat) (c : Image),
      (∀ r (hr : r < lists.length) j (hj : j < (lists.get ⟨r, hr⟩).length),
        fs.decode ((lists.get ⟨r, hr⟩).get ⟨j, hj⟩) = none ∨ ¬ inCell (row + r) j x y) →
      (pasteRows fs row c lists).1.px x y = c.px x y
  | [], _, _ => by
    intro _
    rfl
  | frames :: rest, row, c => by
    intro hexcl
    have hrow : ∀ j (hj : j < frames.length),
        fs.decode (frames.get ⟨j, hj⟩) = none ∨ ¬ inCell row (0 + j) x y := by
      intro j hj
      have := hexcl 0 (Nat.succ_pos _) j hj
      simpa [Nat.zero_add] using this
    have hrest : ∀ r (hr : r < rest.length) j (hj : j < (rest.get ⟨r, hr⟩).length),
        fs.decode ((rest.get ⟨r, hr⟩).get ⟨j, hj⟩) = none ∨ ¬ inCell (row + 1 + r) j x y := by
      intro r hr j hj
      have := hexcl (r + 1) (Nat.succ_lt_succ hr) j hj
      simpa [show row + (r + 1) = row + 1 + r by omega] using this
    simp only [pasteRows]
    rw [pasteRows_px_skip fs x y hfit rest (row + 1) _ hrest]
    have hrow2 : ∀ j (hj : j < frames.length),
        fs.decode (frames.get ⟨j, hj⟩) = none ∨ ¬ inCell row (0 + j) x y := hrow
    exact pasteRow_px_skip fs row x y hfit frames 0 c hrow2

/-! ### A canvas untouched when every decode fails -/

lemma pasteRow_all_none (fs : FS) (row : Nat) :
    ∀ (frames : List FsPath) (col : Nat) (c : Image),
      (∀ p ∈ frames, fs.decode p = none) →
      (pasteRow fs row col c frames).1 = c
  | [], _, _ => by
    intro _
    rfl
  | p :: rest, col, c => by
    intro hall
    simp only [pasteRow]
    cases hq : fs.decode p with
    | none =>
      exact pasteRow_all_none fs row rest (col + 1) c
        (fun q hq2 => hall q (List.mem_cons_of_mem _ hq2))
    | some f =>
      rw [hall p (List.mem_cons_self _ _)] at hq
      cases hq

lemma pasteRows_all_none (fs : FS) :
    ∀ (lists : List (List FsPath)) (row : Nat) (c : Image),
      (∀ l ∈ lists, ∀ p ∈ l, fs.decode p = none) →
      (pasteRows fs row c lists).1 = c
  | [], _, _ => by
    intro _
    rfl
  | frames :: rest, row, c => by
    intro hall
    simp only [pasteRows]
    rw [pasteRow_all_none fs row frames 0 c (hall frames (List.mem_cons_self _ _))]
    exact pasteRows_all_none fs rest (row + 1) c
      (fun l hl => hall l (List.mem_cons_of_mem _ hl))

/-! ### The error log of the composition -/

lemma pasteRow_log (fs : FS) (row : Nat) :
    ∀ (frames : List FsPath) (col : Nat) (c : Image),
      (pasteRow fs row col c frames).2.2 = rowLog fs frames
  | [], _, _ => rfl
  | p :: rest, col, c => by
    simp only [pasteRow, rowLog]
    cases fs.decode p <;>
      simp [pasteRow_log fs row rest (col + 1)]

lemma pasteRows_log (fs : FS) :
    ∀ (lists : List (List FsPath)) (row : Nat) (c : Image),
      (pasteRows fs row c lists).2.2 = sheetLog fs lists
  | [], _, _ => rfl
  | frames :: rest, row, c => by
    simp only [pasteRows, sheetLog]
    rw [pasteRow_log, pasteRows_log fs rest (row + 1)]

lemma composeSheet_log (fs : FS) (ap : FsPath) :
    (composeSheet fs ap).2.2 = sheetLog fs (directionFrames fs ap) := by
  unfold composeSheet
  rw [pasteRows_log]

lemma rowLog_mem (fs : FS) {p : FsPath} (hp : fs.decode p = none) :
    ∀ frames : List FsPath, p ∈ frames →
      ("  Error loading " ++ pathStr p) ∈ rowLog fs frames
  | [], h => absurd h (List.not_mem_nil _)
  | q :: rest, h => by
    simp only [rowLog]
    rcases List.mem_cons.mp h with rfl | h2
    · rw [hp]
      exact List.mem_cons_self _ _
    · cases fs.decode q with
      | some g => exact rowLog_mem fs hp rest h2
      | none => exact List.mem_cons_of_mem _ (rowLog_mem fs hp rest h2)

lemma sheetLog_mem (fs : FS) {p : FsPath} (hp : fs.decode p = none) :
    ∀ lists : List (List FsPath), ∀ l ∈ lists, p ∈ l →
      ("  Error loading " ++ pathStr p) ∈ sheetLog fs lists
  | [], l, hl, _ => absurd hl (List.not_mem_nil _)
  | frames :: rest, l, hl, hp2 => by
    simp only [sheetLog]
    rcases List.mem_cons.mp hl with rfl | h2
    · exact List.mem_append_left _ (rowLog_mem fs hp l hp2)
    · exact List.mem_append_right _ (sheetLog_mem fs hp rest l h2 hp2)

/-! ### The run depends only on the observations actually made -/

lemma get_frame_files_congr (fs1 fs2 : FS) (ap : FsPath) (d : String)
    (h1 : fs1.pathExists (ap ++ [d]) = fs2.pathExists (ap ++ [d]))
    (h2 : fs1.listdir (ap ++ [d]) = fs2.listdir (ap ++ [d])) :
    get_frame_files fs1 ap d = get_frame_files fs2 ap d := by
  simp only [get_frame_files]
  rw [h1, h2]

lemma directionFrames_congr (fs1 fs2 : FS) (ap : FsPath)
    (h1 : ∀ d ∈ DIRECTIONS, fs1.pathExists (ap ++ [d]) = fs2.pathExists (ap ++ [d]))
    (h2 : ∀ d ∈ DIRECTIONS, fs1.listdir (ap ++ [d]) = fs2.listdir (ap ++ [d])) :
    directionFrames fs1 ap = directionFrames fs2 ap := by
  simp only [directionFrames]
  exact List.map_congr_left (fun d hd => by rw [get_frame_files_congr fs1 fs2 ap d (h1 d hd) (h2 d hd)])

lemma pasteRow_congr (fs1 fs2 : FS) (row : Nat) :
    ∀ (frames : List FsPath) (col : Nat) (c : Image),
      (∀ p ∈ frames, fs1.decode p = fs2.decode p) →
      pasteRow fs1 row col c frames = pasteRow fs2 row col c frames
  | [], _, _ => by
    intro _
    rfl
  | p :: rest, col, c => by
    intro hdec
    have hp := hdec p (List.mem_cons_self _ _)
    have hrest : ∀ q ∈ rest, fs1.decode q = fs2.decode q :=
      fun q hq => hdec q (List.mem_cons_of_mem _ hq)
    simp only [pasteRow, ← hp]
    cases fs1.decode p with
    | some f =>
      dsimp only
      rw [pasteRow_congr fs1 fs2 row rest (col + 1) _ hrest]
    | none =>
      dsimp only
      rw [pasteRow_congr fs1 fs2 row rest (col + 1) c hrest]

lemma pasteRows_congr (fs1 fs2 : FS) :
    ∀ (lists : List (List FsPath)) (row : Nat) (c : Image),
      (∀ l ∈ lists, ∀ p ∈ l, fs1.decode p = fs2.decode p) →
      pasteRows fs1 row c lists = pasteRows fs2 row c lists
  | [], _, _ => by
    intro _
    rfl
  | frames :: rest, row, c => by
    intro hdec
    simp only [pasteRows]
    rw [pasteRow_congr fs1 fs2 row frames 0 c (hdec frames (List.mem_cons_self _ _)),
      pasteRows_congr fs1 fs2 rest (row + 1) _
        (fun l hl => hdec l (List.mem_cons_of_mem _ hl))]

lemma discoveryLog_congr (fs1 fs2 : FS) (ap : FsPath)
    (h : ∀ d ∈ DIRECTIONS, get_frame_files fs1 ap d = get_frame_files fs2 ap d) :
    discoveryLog fs1 ap = discoveryLog fs2 ap := by
  simp only [discoveryLog]
  exact congrArg List.flatten (List.map_congr_left (fun d hd => by rw [h d hd]))

lemma composeSheet_congr (fs1 fs2 : FS) (ap : FsPath)
    (h1 : ∀ d ∈ DIRECTIONS, fs1.pathExists (ap ++ [d]) = fs2.pathExists (ap ++ [d]))
    (h2 : ∀ d ∈ DIRECTIONS, fs1.listdir (ap ++ [d]) = fs2.listdir (ap ++ [d]))
    (h3 : ∀ d ∈ DIRECTIONS, ∀ p ∈ (get_frame_files fs1 ap d).1, fs1.decode p = fs2.decode p) :
    composeSheet fs1 ap = composeSheet fs2 ap := by
  have hdf : directionFrames fs1 ap = directionFrames fs2 ap :=
    directionFrames_congr fs1 fs2 ap h1 h2
  have hmax : maxFrames fs1 ap = maxFrames fs2 ap := by
    unfold maxFrames
    rw [hdf]
  unfold composeSheet initialCanvas
  rw [hmax, hdf]
  apply pasteRows_congr
  intro l hl p hp
  rcases List.mem_map.mp (by simpa [directionFrames] using hl) with ⟨d, hd, hld⟩
  have hgff := get_frame_files_congr fs1 fs2 ap d (h1 d hd) (h2 d hd)
  exact h3 d hd p (by rw [hgff, hld]; exact hp)

lemma create_spritesheet_congr (fs1 fs2 : FS) (name folder : String)
    (sd op : FsPath)
    (hA : fs1.pathExists (animationsPath sd ++ [folder]) =
      fs2.pathExists (animationsPath sd ++ [folder]))
    (h1 : ∀ d ∈ DIRECTIONS, fs1.pathExists (animationsPath sd ++ [folder] ++ [d]) =
      fs2.pathExists (animationsPath sd ++ [folder] ++ [d]))
    (h2 : ∀ d ∈ DIRECTIONS, fs1.listdir (animationsPath sd ++ [folder] ++ [d]) =
      fs2.listdir (animationsPath sd ++ [folder] ++ [d]))
    (h3 : ∀ d ∈ DIRECTIONS, ∀ p ∈ (get_frame_files fs1 (animationsPath sd ++ [folder]) d).1,
      fs1.decode p = fs2.decode p)
    (hS : fs1.saveFails op = fs2.saveFails op) :
    create_spritesheet fs1 name folder sd op = create_spritesheet fs2 name folder sd op := by
  have hgff : ∀ d ∈ DIRECTIONS,
      get_frame_files fs1 (animationsPath sd ++ [folder]) d =
        get_frame_files fs2 (animationsPath sd ++ [folder]) d :=
    fun d hd => get_frame_files_congr fs1 fs2 _ d (h1 d hd) (h2 d hd)
  have hdf : directionFrames fs1 (animationsPath sd ++ [folder]) =
      directionFrames fs2 (animationsPath sd ++ [folder]) :=
    directionFrames_congr fs1 fs2 _ h1 h2
  have hmax : maxFrames fs1 (animationsPath sd ++ [folder]) =
      maxFrames fs2 (animationsPath sd ++ [folder]) := by
    unfold maxFrames
    rw [hdf]
  have hlog : discoveryLog fs1 (animationsPath sd ++ [folder]) =
      discoveryLog fs2 (animationsPath sd ++ [folder]) :=
    discoveryLog_congr fs1 fs2 _ hgff
  have hcomp : composeSheet fs1 (animationsPath sd ++ [folder]) =
      composeSheet fs2 (animationsPath sd ++ [folder]) :=
    composeSheet_congr fs1 fs2 _ h1 h2 h3
  simp only [create_spritesheet]
  rw [hA, hmax, hlog, hcomp, hS]

/-! ### Helpers for the batch driver -/

lemma create_spritesheet_missing (fs : FS) (name folder : String) (sd op : FsPath)
    (h : fs.pathExists (animationsPath sd ++ [folder]) = false) :
    create_spritesheet fs name folder sd op =
      .ok ⟨false, none, [],
        ["Animation folder not found: " ++ pathStr (animationsPath sd ++ [folder])]⟩ := by
  simp [create_spritesheet, h]

lemma isSuccess_elim {e : Except String SheetResult} (h : isSuccess e = true) :
    ∃ r, e = .ok r ∧ r.success = true := by
  cases e with
  | ok r => exact ⟨r, rfl, h⟩
  | error s => cases h

lemma isOk_elim {e : Except String SheetResult} (h : isOk e = true) :
    ∃ r, e = .ok r := by
  cases e with
  | ok r => exact ⟨r, rfl⟩
  | error s => cases h

lemma directionFrames_length (fs : FS) (ap : FsPath) :
    (directionFrames fs ap).length = DIRECTIONS.length := by
  simp [directionFrames]

lemma directionFrames_get (fs : FS) (ap : FsPath) (r : Nat)
    (hr1 : r < (directionFrames fs ap).length) (hr2 : r < DIRECTIONS.length) :
    (directionFrames fs ap).get ⟨r, hr1⟩ =
      (get_frame_files fs ap (DIRECTIONS.get ⟨r, hr2⟩)).1 := by
  simp [directionFrames]

lemma directionFrames_mem (fs : FS) (ap : FsPath) (r : Nat) (hr : r < DIRECTIONS.length)
    (frames : List FsPath) (hf : frames = (get_frame_files fs ap (DIRECTIONS.get ⟨r, hr⟩)).1) :
    frames ∈ directionFrames fs ap := by
  rw [hf]
  exact List.mem_map.mpr ⟨DIRECTIONS.get ⟨r, hr⟩, List.get_mem _ _ _, rfl⟩

lemma composeSheet_trace_mem (fs : FS) (ap : FsPath) (r i : Nat)
    (hr : r < DIRECTIONS.length) (frames : List FsPath)
    (hf : frames = (get_frame_files fs ap (DIRECTIONS.get ⟨r, hr⟩)).1)
    (hi : i < frames.length) (f : Image)
    (hd : fs.decode (frames.get ⟨i, hi⟩) = some f) :
    Paste.mk (frames.get ⟨i, hi⟩) (i * FRAME_WIDTH) (r * FRAME_HEIGHT) ∈
      (composeSheet fs ap).2.1 := by
  rw [composeSheet_trace]
  have hr1 : r < (directionFrames fs ap).length := by
    rw [directionFrames_length]
    exact hr
  have hget : (directionFrames fs ap).get ⟨r, hr1⟩ = frames := by
    rw [directionFrames_get fs ap r hr1 hr, hf]
  have hmem := rowTrace_mem fs r frames 0 i hi f hd
  rw [Nat.zero_add] at hmem
  exact sheetTrace_mem fs (directionFrames fs ap) 0 r hr1 _
    (by rw [Nat.zero_add, hget]; exact hmem)

/-! ### Claims -/

/-- C2: for every animation and every direction `d` with a non-empty
discovered frame sequence, the frame at sorted position `i` of `d` is
pasted at canvas cell origin `(i * 104, index_of(d) * 104)`, where the
index is taken over the fixed direction order; the composition (hence the
placement) is a pure function of the filesystem observations. -/
theorem spritesheet_placement (fs : FS) (ap : FsPath) (r i : Nat)
    (hr : r < DIRECTIONS.length) (frames : List FsPath)
    (hf : frames = (get_frame_files fs ap (DIRECTIONS.get ⟨r, hr⟩)).1)
    (hi : i < frames.length) (f : Image)
    (hd : fs.decode (frames.get ⟨i, hi⟩) = some f) :
    Paste.mk (frames.get ⟨i, hi⟩) (i * FRAME_WIDTH) (r * FRAME_HEIGHT) ∈
      (composeSheet fs ap).2.1 :=
  composeSheet_trace_mem fs ap r i hr frames hf hi f hd

/-- Witness for C2: on the concrete filesystem `fsGood`, the second frame
of `east` (direction index 2) is pasted at `(104, 208)`. -/
theorem spritesheet_placement_witness :
    Paste.mk (["root", "animations", "walk", "east", "frame_001.png"]) 104 208 ∈
      (composeSheet fsGood (["root", "animations", "walk"])).2.1 :=
  spritesheet_placement fsGood (["root", "animations", "walk"]) 2 1 (by decide)
    ([["root", "animations", "walk", "east", "frame_000.png"],
      ["root", "animations", "walk", "east", "frame_001.png"]])
    (by decide) (by decide) whiteFrame rfl

/-- C3: for every animation with an existing source folder, at least one
discoverable frame and a writable output path, the written canvas has
width `max_frames * 104` and height `8 * 104 = 832`, and the freshly
allocated canvas is fully transparent. -/
theorem canvas_dimensions (fs : FS) (name folder : String) (sd op : FsPath)
    (hex : fs.pathExists (animationsPath sd ++ [folder]) = true)
    (hmax : maxFrames fs (animationsPath sd ++ [folder]) ≠ 0)
    (hsave : fs.saveFails op = false) :
    writtenWidth (create_spritesheet fs name folder sd op) =
      some (maxFrames fs (animationsPath sd ++ [folder]) * FRAME_WIDTH) ∧
    writtenHeight (create_spritesheet fs name folder sd op) = some 832 ∧
    (∀ x y, (initialCanvas fs (animationsPath sd ++ [folder])).px x y = transparent) := by
  refine ⟨?_, ?_, fun x y => rfl⟩
  · simp [create_spritesheet, hex, hmax, hsave, writtenWidth, sheetWritten,
      composeSheet_width]
  · simp [create_spritesheet, hex, hmax, hsave, writtenHeight, sheetWritten,
      composeSheet_height]
    decide

/-- Witness for C3: the walk sheet on `fsGood` is 208 by 832 and its
initial canvas is transparent at a sample pixel. -/
theorem canvas_dimensions_witness :
    writtenWidth (create_spritesheet fsGood ("walk") ("walk") sd0
      (animOutputPath sd0 ("walk"))) = some 208 ∧
    writtenHeight (create_spritesheet fsGood ("walk") ("walk") sd0
      (animOutputPath sd0 ("walk"))) = some 832 ∧
    (initialCanvas fsGood (animationsPath sd0 ++ ["walk"])).px 5 7 = transparent := by
  have h := canvas_dimensions fsGood ("walk") ("walk") sd0 (animOutputPath sd0 ("walk"))
    (by decide) (by decide) rfl
  exact ⟨h.1.trans (by decide), h.2.1, h.2.2 5 7⟩

/-- C4: for every animation whose source folder exists but in which no
direction has any discoverable frame, `create_spritesheet` returns
normally (non-fatal), reports failure, and writes no output image. -/
theorem no_frames_skipped (fs : FS) (name folder : String) (sd op : FsPath)
    (hex : fs.pathExists (animationsPath sd ++ [folder]) = true)
    (hmax : maxFrames fs (animationsPath sd ++ [folder]) = 0) :
    isOk (create_spritesheet fs name folder sd op) = true ∧
    isSuccess (create_spritesheet fs name folder sd op) = false ∧
    sheetWritten (create_spritesheet fs name folder sd op) = none := by
  simp [create_spritesheet, hex, hmax, isOk, isSuccess, sheetWritten]

/-- Witness for C4: on `fsEmpty` the `idle` animation folder exists but
has no frames; the call returns failure without writing and without
raising. -/
theorem no_frames_skipped_witness :
    isOk (create_spritesheet fsEmpty ("idle") ("breathing-idle") sd0
      (animOutputPath sd0 ("idle"))) = true ∧
    isSuccess (create_spritesheet fsEmpty ("idle") ("breathing-idle") sd0
      (animOutputPath sd0 ("idle"))) = false ∧
    sheetWritten (create_spritesheet fsEmpty ("idle") ("breathing-idle") sd0
      (animOutputPath sd0 ("idle"))) = none :=
  no_frames_skipped fsEmpty ("idle") ("breathing-idle") sd0
    (animOutputPath sd0 ("idle")) (by decide) (by decide)

/-- C7: frame discovery returns exactly the listed files that carry the
fixed name prefix and image extension, sorted lexicographically by
filename; a missing direction directory yields an empty sequence plus a
diagnostic instead of an error. -/
theorem frame_discovery (fs : FS) (ap : FsPath) (d : String) :
    (fs.pathExists (ap ++ [d]) = false →
      get_frame_files fs ap d =
        ([], ["  Warning: Directory not found: " ++ pathStr (ap ++ [d])])) ∧
    (fs.pathExists (ap ++ [d]) = true →
      (∀ f : String, (ap ++ [d] ++ [f]) ∈ (get_frame_files fs ap d).1 ↔
        (f ∈ fs.listdir (ap ++ [d]) ∧ strStartsWith f ("frame_") = true ∧
          strEndsWith f (".png") = true)) ∧
      List.Pairwise
        (fun a b : FsPath => strLe (a.getLastD ("")) (b.getLastD ("")) = true)
        (get_frame_files fs ap d).1) := by
  constructor
  · intro hfalse
    simp [get_frame_files, hfalse]
  · intro htrue
    have hres : (get_frame_files fs ap d).1 =
        (sortStrings ((fs.listdir (ap ++ [d])).filter
          (fun f => strStartsWith f ("frame_") && strEndsWith f (".png")))).map
          (fun f => ap ++ [d] ++ [f]) := by
      simp [get_frame_files, htrue]
    constructor
    · intro f
      rw [hres]
      constructor
      · intro hmem
        rcases List.mem_map.mp hmem with ⟨g, hg, he⟩
        have hgf : g = f := by
          have := List.append_cancel_left he
          simpa using this
        subst hgf
        have := List.mem_filter.mp (mem_sortStrings.mp hg)
        exact ⟨this.1, by simpa [Bool.and_eq_true] using this.2⟩
      · intro ⟨h1, h2, h3⟩
        refine List.mem_map.mpr ⟨f, ?_, rfl⟩
        exact mem_sortStrings.mpr (List.mem_filter.mpr ⟨h1, by simp [h2, h3]⟩)
    · rw [hres, List.pairwise_map]
      apply List.Pairwise.imp _ (sorted_sortStrings _)
      intro a b hab
      simpa [List.getLastD_concat] using hab

/-- Witness for C7: on `fsGood`, the missing `walk/north` directory gives
an empty result with a warning, while `walk/south` contains
`frame_000.png` (which carries prefix and extension) and excludes
`notes.txt` by the same characterisation. -/
theorem frame_discovery_witness :
    (fsGood.pathExists (["root", "animations", "walk", "north"]) = false ∧
      get_frame_files fsGood (["root", "animations", "walk"]) ("north") =
        ([], ["  Warning: Directory not found: " ++
          pathStr (["root", "animations", "walk", "north"])])) ∧
    (fsGood.pathExists (["root", "animations", "walk", "south"]) = true ∧
      ((["root", "animations", "walk", "south", "frame_000.png"]) ∈
          (get_frame_files fsGood (["root", "animations", "walk"]) ("south")).1 ↔
        ("frame_000.png" ∈ fsGood.listdir (["root", "animations", "walk", "south"]) ∧
          strStartsWith ("frame_000.png") ("frame_") = true ∧
          strEndsWith ("frame_000.png") (".png") = true))) :=
  ⟨⟨by decide, (frame_discovery fsGood (["root", "animations", "walk"]) ("north")).1 (by decide)⟩,
   ⟨by decide, ((frame_discovery fsGood (["root", "animations", "walk"]) ("south")).2
      (by decide)).1 ("frame_000.png")⟩⟩

/-- C6: a frame that fails to decode is logged and skipped — no paste of
it is performed, while every frame that does decode is still pasted — and
(when, as in this sprite set, decoded frames fit the 104 by 104 cell) its
whole cell stays transparent; the failure does not abort the assembly. -/
theorem decode_failure_isolated (fs : FS) (ap : FsPath) (r i : Nat)
    (hr : r < DIRECTIONS.length) (frames : List FsPath)
    (hf : frames = (get_frame_files fs ap (DIRECTIONS.get ⟨r, hr⟩)).1)
    (hi : i < frames.length)
    (hd : fs.decode (frames.get ⟨i, hi⟩) = none) :
    ("  Error loading " ++ pathStr (frames.get ⟨i, hi⟩)) ∈ (composeSheet fs ap).2.2 ∧
    (∀ x y, Paste.mk (frames.get ⟨i, hi⟩) x y ∉ (composeSheet fs ap).2.1) ∧
    (∀ j (hj : j < frames.length) (g : Image),
      fs.decode (frames.get ⟨j, hj⟩) = some g →
      Paste.mk (frames.get ⟨j, hj⟩) (j * FRAME_WIDTH) (r * FRAME_HEIGHT) ∈
        (composeSheet fs ap).2.1) ∧
    ((∀ p f, fs.decode p = some f → f.width ≤ FRAME_WIDTH ∧ f.height ≤ FRAME_HEIGHT) →
      ∀ x y, inCell r i x y → (composeSheet fs ap).1.px x y = transparent) := by
  refine ⟨?_, ?_, ?_, ?_⟩
  · rw [composeSheet_log]
    exact sheetLog_mem fs hd _ frames
      (directionFrames_mem fs ap r hr frames hf) (List.get_mem _ _ _)
  · intro x y
    rw [composeSheet_trace]
    exact sheetTrace_not_mem fs hd _ 0 x y
  · intro j hj g hg
    exact composeSheet_trace_mem fs ap r j hr frames hf hj g hg
  · intro hfit x y hcell
    unfold composeSheet
    rw [pasteRows_px_skip fs x y hfit (directionFrames fs ap) 0 (initialCanvas fs ap) ?_]
    · rfl
    · intro r2 hr2 j hj
      by_cases hcase : r2 = r ∧ j = i
      · left
        obtain ⟨hre, hje⟩ := hcase
        subst hre
        subst hje
        have hget : (directionFrames fs ap).get ⟨r2, hr2⟩ = frames := by
          rw [directionFrames_get fs ap r2 hr2 hr, ← hf]
        revert hj
        rw [hget]
        intro hj
        exact hd
      · right
        intro hcell2
        have huniq := inCell_unique hcell2 hcell
        exact hcase ⟨by omega, huniq.2⟩

/-- Witness for C6: on `fsMixed` the undecodable `walk/south/frame_000.png`
is logged, never pasted, its neighbour is still pasted, and its cell is
transparent. -/
theorem decode_failure_isolated_witness :
    ("  Error loading " ++
        pathStr (["root", "animations", "walk", "south", "frame_000.png"])) ∈
      (composeSheet fsMixed (["root", "animations", "walk"])).2.2 ∧
    Paste.mk (["root", "animations", "walk", "south", "frame_000.png"]) 0 0 ∉
      (composeSheet fsMixed (["root", "animations", "walk"])).2.1 ∧
    Paste.mk (["root", "animations", "walk", "south", "frame_001.png"]) 104 0 ∈
      (composeSheet fsMixed (["root", "animations", "walk"])).2.1 ∧
    (composeSheet fsMixed (["root", "animations", "walk"])).1.px 50 50 = transparent := by
  have hfit : ∀ p f, fsMixed.decode p = some f →
      f.width ≤ FRAME_WIDTH ∧ f.height ≤ FRAME_HEIGHT := by
    intro p f h
    simp only [fsMixed] at h
    split at h
    · simp at h
    · injection h with h2
      rw [← h2]
      exact ⟨Nat.le.refl, Nat.le.refl⟩
  have h := decode_failure_isolated fsMixed (["root", "animations", "walk"]) 0 0
    (by decide)
    ([["root", "animations", "walk", "south", "frame_000.png"],
      ["root", "animations", "walk", "south", "frame_001.png"]])
    (by decide) (by decide) rfl
  exact ⟨h.1, h.2.1 0 0, h.2.2.1 1 (by decide) whiteFrame rfl,
    h.2.2.2 hfit 50 50 ⟨by decide, by decide, by decide, by decide⟩⟩

/-- C9: if the source folder exists and frames were discovered, the sheet
is written and the call reports success even when every frame fails to
decode — the written sheet is then fully transparent. -/
theorem all_decode_failed_success (fs : FS) (name folder : String) (sd op : FsPath)
    (hex : fs.pathExists (animationsPath sd ++ [folder]) = true)
    (hmax : maxFrames fs (animationsPath sd ++ [folder]) ≠ 0)
    (hdec : ∀ l ∈ directionFrames fs (animationsPath sd ++ [folder]), ∀ p ∈ l,
      fs.decode p = none)
    (hsave : fs.saveFails op = false) :
    isSuccess (create_spritesheet fs name folder sd op) = true ∧
    (∀ x y, writtenPx (create_spritesheet fs name folder sd op) x y = some transparent) := by
  have himg : (composeSheet fs (animationsPath sd ++ [folder])).1 =
      initialCanvas fs (animationsPath sd ++ [folder]) := by
    unfold composeSheet
    exact pasteRows_all_none fs _ 0 _ hdec
  constructor
  · simp [create_spritesheet, hex, hmax, hsave, isSuccess]
  · intro x y
    simp [create_spritesheet, hex, hmax, hsave, writtenPx, sheetWritten, himg]
    rfl

/-- Witness for C9: on `fsNoneDecode` no frame decodes, yet the walk sheet
is reported successful and a sample pixel of the written sheet is
transparent. -/
theorem all_decode_failed_success_witness :
    isSuccess (create_spritesheet fsNoneDecode ("walk") ("walk") sd0
      (animOutputPath sd0 ("walk"))) = true ∧
    writtenPx (create_spritesheet fsNoneDecode ("walk") ("walk") sd0
      (animOutputPath sd0 ("walk"))) 3 4 = some transparent := by
  have h := all_decode_failed_success fsNoneDecode ("walk") ("walk") sd0
    (animOutputPath sd0 ("walk")) (by decide) (by decide)
    (fun l hl p hp => rfl) rfl
  exact ⟨h.1, h.2 3 4⟩

/-- C8: the assembly is a deterministic, stateless function of the
filesystem observations it makes: two filesystems agreeing on the
animation folder, the direction listings, the decoded frames and the
output path produce identical results, so re-running on unchanged inputs
reproduces the output pixel for pixel. -/
theorem assembly_deterministic (fs1 fs2 : FS) (name folder : String) (sd op : FsPath)
    (hA : fs1.pathExists (animationsPath sd ++ [folder]) =
      fs2.pathExists (animationsPath sd ++ [folder]))
    (h1 : ∀ d ∈ DIRECTIONS, fs1.pathExists (animationsPath sd ++ [folder] ++ [d]) =
      fs2.pathExists (animationsPath sd ++ [folder] ++ [d]))
    (h2 : ∀ d ∈ DIRECTIONS, fs1.listdir (animationsPath sd ++ [folder] ++ [d]) =
      fs2.listdir (animationsPath sd ++ [folder] ++ [d]))
    (h3 : ∀ d ∈ DIRECTIONS, ∀ p ∈ (get_frame_files fs1 (animationsPath sd ++ [folder]) d).1,
      fs1.decode p = fs2.decode p)
    (hS : fs1.saveFails op = fs2.saveFails op) :
    create_spritesheet fs1 name folder sd op = create_spritesheet fs2 name folder sd op :=
  create_spritesheet_congr fs1 fs2 name folder sd op hA h1 h2 h3 hS

/-- Witness for C8: `fsGood` and `fsGood2` differ only in an unrelated
directory listing, and the walk sheet comes out identical. -/
theorem assembly_deterministic_witness :
    create_spritesheet fsGood ("walk") ("walk") sd0 (animOutputPath sd0 ("walk")) =
      create_spritesheet fsGood2 ("walk") ("walk") sd0 (animOutputPath sd0 ("walk")) :=
  assembly_deterministic fsGood fsGood2 ("walk") ("walk") sd0 (animOutputPath sd0 ("walk"))
    (by decide) (by decide) (by decide) (fun d hd p hp => rfl) (by decide)

/-- C5: if exactly one animation's source folder is absent and every other
animation succeeds, the batch completes with `succeeded = total - 1`;
each animation is counted independently. -/
theorem missing_folder_counted (fs : FS) (sd : FsPath) (k : Nat)
    (hk : k < ANIMATIONS.length)
    (hmiss : fs.pathExists (animationsPath sd ++ [(ANIMATIONS.get ⟨k, hk⟩).2]) = false)
    (hothers : ∀ j (hj : j < ANIMATIONS.length), j ≠ k →
      isSuccess (animResult fs sd (ANIMATIONS.get ⟨j, hj⟩)) = true) :
    mainBatch fs sd = .ok (ANIMATIONS.length - 1, ANIMATIONS.length) := by
  have hk3 : k < 3 := hk
  interval_cases k
  · have h0 : animResult fs sd (("idle", "breathing-idle")) =
        .ok ⟨false, none, [], ["Animation folder not found: " ++
          pathStr (animationsPath sd ++ ["breathing-idle"])]⟩ :=
      create_spritesheet_missing fs ("idle") ("breathing-idle") sd
        (animOutputPath sd ("idle")) hmiss
    obtain ⟨r1, e1, s1⟩ := isSuccess_elim (hothers 1 (by decide) (by decide))
    obtain ⟨r2, e2, s2⟩ := isSuccess_elim (hothers 2 (by decide) (by decide))
    have e1b : animResult fs sd (("walk", "walk")) = .ok r1 := e1
    have e2b : animResult fs sd (("run", "running-6-frames")) = .ok r2 := e2
    simp [mainBatch, ANIMATIONS, runAnims, Except.map, h0, e1b, e2b, s1, s2]
  · have h1 : animResult fs sd (("walk", "walk")) =
        .ok ⟨false, none, [], ["Animation folder not found: " ++
          pathStr (animationsPath sd ++ ["walk"])]⟩ :=
      create_spritesheet_missing fs ("walk") ("walk") sd
        (animOutputPath sd ("walk")) hmiss
    obtain ⟨r0, e0, s0⟩ := isSuccess_elim (hothers 0 (by decide) (by decide))
    obtain ⟨r2, e2, s2⟩ := isSuccess_elim (hothers 2 (by decide) (by decide))
    have e0b : animResult fs sd (("idle", "breathing-idle")) = .ok r0 := e0
    have e2b : animResult fs sd (("run", "running-6-frames")) = .ok r2 := e2
    simp [mainBatch, ANIMATIONS, runAnims, Except.map, h1, e0b, e2b, s0, s2]
  · have h2 : animResult fs sd (("run", "running-6-frames")) =
        .ok ⟨false, none, [], ["Animation folder not found: " ++
          pathStr (animationsPath sd ++ ["running-6-frames"])]⟩ :=
      create_spritesheet_missing fs ("run") ("running-6-frames") sd
        (animOutputPath sd ("run")) hmiss
    obtain ⟨r0, e0, s0⟩ := isSuccess_elim (hothers 0 (by decide) (by decide))
    obtain ⟨r1, e1, s1⟩ := isSuccess_elim (hothers 1 (by decide) (by decide))
    have e0b : animResult fs sd (("idle", "breathing-idle")) = .ok r0 := e0
    have e1b : animResult fs sd (("walk", "walk")) = .ok r1 := e1
    simp [mainBatch, ANIMATIONS, runAnims, Except.map, h2, e0b, e1b, s0, s1]

/-- Witness for C5: on `fsMissingIdle` the idle source folder is absent
while walk and run succeed, and the summary is 2 of 3. -/
theorem missing_folder_counted_witness :
    mainBatch fsMissingIdle sd0 = .ok (2, 3) := by
  refine missing_folder_counted fsMissingIdle sd0 0 (by decide) (by decide) ?_
  intro j hj hne
  have hj3 : j < 3 := hj
  interval_cases j
  · exact absurd rfl hne
  · exact (by decide :
      isSuccess (animResult fsMissingIdle sd0 (("walk", "walk"))) = true)
  · exact (by decide :
      isSuccess (animResult fsMissingIdle sd0 (("run", "running-6-frames"))) = true)

/-- Counterexample for C1: on `fsSaveFail` only writing `idle.png` fails,
yet the whole batch terminates with the exception — the remaining
animations are not reached and no summary is printed, contradicting the
claim that an output-write failure is non-fatal to the batch. -/
theorem output_write_error_counterexample :
    mainBatch fsSaveFail sd0 = .error ("OutputWriteError") ∧
    batchCompleted (mainBatch fsSaveFail sd0) = false :=
  ⟨rfl, rfl⟩

/-- C1 (amended): a failure to encode or write the composed canvas raises
an uncaught exception that terminates the whole batch: if the animations
before position `k` return normally and animation `k` raises, the batch
ends with that exception and no summary is printed. -/
theorem output_write_error_fatal (fs : FS) (sd : FsPath) (k : Nat)
    (hk : k < ANIMATIONS.length) (e : String)
    (hprev : ∀ j (hj : j < ANIMATIONS.length), j < k →
      isOk (animResult fs sd (ANIMATIONS.get ⟨j, hj⟩)) = true)
    (herr : animResult fs sd (ANIMATIONS.get ⟨k, hk⟩) = .error e) :
    mainBatch fs sd = .error e := by
  have hk3 : k < 3 := hk
  interval_cases k
  · have h0 : animResult fs sd (("idle", "breathing-idle")) = .error e := herr
    simp [mainBatch, ANIMATIONS, runAnims, Except.map, h0]
  · obtain ⟨r0, e0⟩ := isOk_elim (hprev 0 (by decide) (by decide))
    have e0b : animResult fs sd (("idle", "breathing-idle")) = .ok r0 := e0
    have h1 : animResult fs sd (("walk", "walk")) = .error e := herr
    simp [mainBatch, ANIMATIONS, runAnims, Except.map, e0b, h1]
  · obtain ⟨r0, e0⟩ := isOk_elim (hprev 0 (by decide) (by decide))
    obtain ⟨r1, e1⟩ := isOk_elim (hprev 1 (by decide) (by decide))
    have e0b : animResult fs sd (("idle", "breathing-idle")) = .ok r0 := e0
    have e1b : animResult fs sd (("walk", "walk")) = .ok r1 := e1
    have h2 : animResult fs sd (("run", "running-6-frames")) = .error e := herr
    simp [mainBatch, ANIMATIONS, runAnims, Except.map, e0b, e1b, h2]

/-- Witness for the amended C1: on `fsSaveFail`, the first animation's
write raises and the batch ends with the exception. -/
theorem output_write_error_fatal_witness :
    mainBatch fsSaveFail sd0 = .error ("OutputWriteError") := by
  have herr : animResult fsSaveFail sd0 (("idle", "breathing-idle")) =
      .error ("OutputWriteError") := rfl
  exact output_write_error_fatal fsSaveFail sd0 0 (by decide) ("OutputWriteError")
    (fun j hj hlt => absurd hlt (by omega)) herr

/-- C10: frame sizes are never validated against the 104 by 104 cell: each
decoded frame is pasted with its own width and height.  On `fsOdd` the
208-wide frame of column 0 overwrites pixel `(160, 10)` inside column 1's
cell, the 50 by 50 frame of column 1 shows at `(130, 20)`, and the part of
column 1's cell beyond both frames, such as `(110, 60)`, stays
transparent. -/
theorem frame_size_unchecked :
    bigFrame.width = 208 ∧ FRAME_WIDTH = 104 ∧
    Paste.mk (["root", "animations", "walk", "south", "frame_000.png"]) 0 0 ∈
      (composeSheet fsOdd (["root", "animations", "walk"])).2.1 ∧
    (composeSheet fsOdd (["root", "animations", "walk"])).1.px 160 10 = redPx ∧
    (composeSheet fsOdd (["root", "animations", "walk"])).1.px 130 20 = bluePx ∧
    (composeSheet fsOdd (["root", "animations", "walk"])).1.px 110 60 = transparent ∧
    redPx ≠ transparent := by
  refine ⟨rfl, rfl, by decide, by decide, by decide, by decide, by decide⟩
